import Mathlib

/-!
Shallow embedding of the VisionTour AI pipeline
(src/App.tsx, src/geminiService.ts, src/types.ts).

The three remote AI calls, the platform file reader and the audio decoding
chain are suspension points of the async pipeline; they are modelled as a
record of capability results (`Caps`).  The React `setState` updates of
`handleFileUpload` are modelled as explicit functions on `TourState`, and
the async control flow is modelled as a small-step machine (`Machine`,
`deliver`) whose resume points are exactly the `await`s of the source,
plus a big-step runner (`handleFileUpload`) that discharges a full run.
-/

namespace VisionTour

/-- Loading stages of the tour pipeline (src/types.ts, `TourState.loadingStage`). -/
inductive LoadingStage where
  | idle
  | identifying
  | researching
  | narrating
  | ready
deriving DecidableEq

/-- A JSON value, the result of `JSON.parse` on the identification model's
response text (src/geminiService.ts line 48).  Numbers are modelled as
rationals. -/
inductive Jval where
  | jnull
  | jbool (b : Bool)
  | jnum (q : Rat)
  | jstr (s : String)
  | jarr (elems : List Jval)
  | jobj (fields : List (String × Jval))

/-- Decoded audio: the normalized sample sequence of the playable buffer
(spec section 4.2, `PlayableAudioBuffer`). -/
def AudioBuffer : Type := List Rat

/-- A grounding source citation (src/types.ts, `DetailedHistory.sources`). -/
structure Source where
  title : String
  uri : String
deriving DecidableEq

/-- Detailed history returned by the research stage (src/types.ts). -/
structure DetailedHistory where
  fullStory : String
  sources : List Source
deriving DecidableEq

/-- The landmark value as the JavaScript runtime actually sees it after
`JSON.parse(...)` is cast to `LandmarkInfo` without validation
(src/geminiService.ts line 48): each declared field may be absent. -/
structure LandmarkV where
  name : Option Jval
  shortDescription : Option Jval
  pointsOfInterest : Option Jval

/-- The tour state aggregate (src/types.ts, `TourState`; held in the
`useState` hook of src/App.tsx lines 20-27). -/
structure TourState where
  image : Option String
  landmark : Option LandmarkV
  history : Option DetailedHistory
  audioBuffer : Option AudioBuffer
  loadingStage : LoadingStage
  error : Option String

/-- Initial tour state (src/App.tsx lines 20-27). -/
def initialTourState : TourState :=
  { image := Option.none
    landmark := Option.none
    history := Option.none
    audioBuffer := Option.none
    loadingStage := LoadingStage.idle
    error := Option.none }

/-! ## Codec layer (src/utils.ts, not included under src/; modelled from the spec) -/

/-- Modelled from the spec: reading one little-endian signed 16-bit integer from
two bytes (spec section 4.2, `decodeAudioSamples`; the implementing file
src/utils.ts is not part of the provided sources). -/
def toSigned16 (lo hi : Nat) : Int :=
  let v : Nat := (lo % 256) + 256 * (hi % 256)
  if v < 32768 then (v : Int) else (v : Int) - 65536

/-- Modelled from the spec: `decodeAudioSamples` of src/utils.ts (file not
included under src/).  Interprets the byte stream as little-endian signed
16-bit integers, normalizes each by dividing by 32768, and drops an odd
trailing byte.  It is a pure function, hence deterministic. -/
def decodeAudioSamples : List Nat → List Rat
  | lo :: hi :: rest => ((toSigned16 lo hi : Int) : Rat) / 32768 :: decodeAudioSamples rest
  | _ => []

/-! ## Service layer (src/geminiService.ts) -/

/-- JavaScript template-literal interpolation of a possibly-absent JSON value,
as in the template strings of src/App.tsx line 62 and src/geminiService.ts
line 59 (an absent property interpolates as the string "undefined"; arrays
and objects are rendered approximately, never reached by the claims). -/
def jsTemplate : Option Jval → String
  | Option.none => "undefined"
  | some Jval.jnull => "null"
  | some (Jval.jbool b) => if b then "true" else "false"
  | some (Jval.jnum q) => toString q
  | some (Jval.jstr s) => s
  | some (Jval.jarr _) => ""
  | some (Jval.jobj _) => "[object Object]"

/-- JavaScript `a || b` on a possibly-absent string: `undefined` and the empty
string are falsy (src/geminiService.ts line 78, `response.text || ...`). -/
def jsOr (a : Option String) (b : String) : String :=
  match a with
  | Option.none => b
  | some s => if s = "" then b else s

/-- JavaScript property read on a JSON value: a key lookup on an object
(last occurrence wins, as in `JSON.parse`), `undefined` otherwise. -/
def jGet (j : Jval) (k : String) : Option Jval :=
  match j with
  | Jval.jobj fields =>
      fields.foldl (fun acc f => if f.fst = k then some f.snd else acc) Option.none
  | _ => Option.none

/-- The unchecked cast `JSON.parse(...) as LandmarkInfo` of
src/geminiService.ts line 48: the declared fields are read off the parsed
value with no validation, so any of them may be absent. -/
def extractLandmark (j : Jval) : LandmarkV :=
  { name := jGet j "name"
    shortDescription := jGet j "shortDescription"
    pointsOfInterest := jGet j "pointsOfInterest" }

/-- Response of the research model call (src/geminiService.ts lines 61-69):
`response.text` may be absent or empty, and the optional-chained
`candidates?.[0]?.groundingMetadata?.groundingChunks` may be absent. -/
structure Chunk where
  web : Option Source
deriving DecidableEq

/-- Research model response: the generated text and the grounding chunks. -/
structure ResearchResp where
  text : Option String
  groundingChunks : Option (List Chunk)
deriving DecidableEq

/-- TTS model response: the optional-chained
`candidates?.[0]?.content?.parts?.[0]?.inlineData?.data`
(src/geminiService.ts line 101). -/
structure TtsResp where
  data : Option String
deriving DecidableEq

/-- The five suspension points of a run, each modelled as a capability
result: the platform file reader (`fileToBase64`, src/utils.ts, not under
src/), the three remote model calls, and the audio decoding chain
(`decodeBase64` + `decodeAudioData`, src/utils.ts, not under src/).  The
identification response is modelled post-`JSON.parse`: `Option.none` is an
unparsable response text, `some j` the parsed JSON value ( `response.text`
being `undefined` parses the fallback text and yields the empty object). -/
structure Caps where
  fileB64 : Except String String
  identifyModel : String → Except String (Option Jval)
  researchModel : String → Except String ResearchResp
  ttsModel : String → Except String TtsResp
  decodeAudio : String → Except String AudioBuffer

/-- Stage 1 service, `identifyLandmark` of src/geminiService.ts lines 11-52:
a model-call failure propagates; an unparsable response text throws
"Failed to parse landmark identification data."; a parsed value is cast to
`LandmarkInfo` without any required-field validation. -/
def identifyLandmark (resp : Except String (Option Jval)) : Except String LandmarkV :=
  match resp with
  | Except.error m => Except.error m
  | Except.ok Option.none => Except.error "Failed to parse landmark identification data."
  | Except.ok (some j) => Except.ok (extractLandmark j)

/-- The research prompt of src/geminiService.ts line 59. -/
def researchPrompt (landmarkName : Option Jval) : String :=
  "Research the historical significance and interesting facts about " ++
    jsTemplate landmarkName ++
    ". Provide a detailed and engaging historical narrative. Focus on why it is important today."

/-- Mapping of the research model response to a `DetailedHistory`
(src/geminiService.ts lines 69-80): default the chunk list to `[]`, keep
the chunks that carry a `web` field, project their `title`/`uri`, and
default an absent or empty response text to "No information found.". -/
def researchOfResp (resp : ResearchResp) : DetailedHistory :=
  let groundingChunks := resp.groundingChunks.getD []
  let sources :=
    (groundingChunks.filter (fun c => c.web.isSome)).map
      (fun c => (c.web.getD { title := "undefined", uri := "undefined" }))
  { fullStory := jsOr resp.text "No information found."
    sources := sources }

/-- Stage 2 service, `researchLandmark` of src/geminiService.ts lines 57-81. -/
def researchLandmark (caps : Caps) (landmarkName : Option Jval) : Except String DetailedHistory :=
  match caps.researchModel (researchPrompt landmarkName) with
  | Except.error m => Except.error m
  | Except.ok resp => Except.ok (researchOfResp resp)

/-- JavaScript `s.substring(0, n)` (src/geminiService.ts line 90). -/
def jsSubstring (s : String) (n : Nat) : String := (s.toList.take n).asString

/-- The fixed voice instruction prepended to the truncated text in the TTS
prompt of src/geminiService.ts line 90. -/
def voiceInstruction : String := "Speak in a warm, professional tour guide voice: "

/-- The full prompt text sent to the speech-synthesis model
(src/geminiService.ts line 90): the fixed voice instruction followed by the
input text truncated to its first 1000 characters. -/
def narrationPrompt (text : String) : String :=
  voiceInstruction ++ jsSubstring text 1000

/-- Stage 3 service, `narrateHistory` of src/geminiService.ts lines 86-105:
sends the narration prompt; a missing audio payload throws
"No audio data generated.". -/
def narrateHistory (caps : Caps) (text : String) : Except String String :=
  match caps.ttsModel (narrationPrompt text) with
  | Except.error m => Except.error m
  | Except.ok resp =>
      match resp.data with
      | Option.none => Except.error "No audio data generated."
      | some a => Except.ok a

/-! ## Playback controller (src/App.tsx lines 29-36, 73-84) -/

/-- Playback state: whether the audio context is initialized
(`audioContextRef`), the id of the source node currently referenced by
`audioSourceRef`, a fresh-id counter, and the handles that are actually
playing.  `stop()` on an already-stopped node is wrapped in try/catch in the
source, so stopping is modelled as a total filter. -/
structure PlayerState where
  ctx : Bool
  currentId : Option Nat
  nextId : Nat
  active : List (Nat × AudioBuffer)

/-- Initial playback state: no context, no source node. -/
def initialPlayer : PlayerState :=
  { ctx := false, currentId := Option.none, nextId := 0, active := [] }

/-- Stopping the node referenced by `audioSourceRef` (src/App.tsx lines
75-77 and 88-90); a no-op when the ref is empty or the node already
stopped, as the source's try/catch guarantees. -/
def stopCurrent (p : PlayerState) : PlayerState :=
  match p.currentId with
  | some i => { p with active := p.active.filter (fun h => h.fst ≠ i) }
  | Option.none => p

/-- `playNarration` of src/App.tsx lines 73-84: bail out if the audio
context is not initialized; otherwise stop the currently referenced source,
start a new source bound to `buffer`, and store it in `audioSourceRef`. -/
def playNarration (buffer : AudioBuffer) (p : PlayerState) : PlayerState :=
  if p.ctx = false then p
  else
    let p1 := stopCurrent p
    { p1 with
        active := (p1.nextId, buffer) :: p1.active
        currentId := some p1.nextId
        nextId := p1.nextId + 1 }

/-! ## Pipeline machine (src/App.tsx lines 44-99) -/

/-- The continuation of an in-flight `handleFileUpload` run, one constructor
per pending `await` of src/App.tsx lines 53-64 (`decodeBase64` +
`decodeAudioData` are folded into the final decode suspension; no state
update separates them in the source). -/
inductive Pending where
  | none
  | awaitFile
  | awaitIdentify (b64 : String)
  | awaitResearch (landmark : LandmarkV)
  | awaitNarrate (landmark : LandmarkV) (history : DetailedHistory)
  | awaitDecode (landmark : LandmarkV) (history : DetailedHistory) (audioB64 : String)

/-- Whole-application state: the tour state aggregate, the playback state
and the pending continuation of an in-flight run. -/
structure Machine where
  tour : TourState
  player : PlayerState
  pending : Pending

/-- Initial machine state. -/
def initMachine : Machine :=
  { tour := initialTourState, player := initialPlayer, pending := Pending.none }

/-- First `setState` of `handleFileUpload` (src/App.tsx line 49). -/
def updStart (s : TourState) : TourState :=
  { s with loadingStage := LoadingStage.identifying, image := Option.none, error := Option.none }

/-- `setState` storing the data URL of the captured image (src/App.tsx line 54). -/
def updImage (b64 : String) (s : TourState) : TourState :=
  { s with image := some ("data:image/jpeg;base64," ++ b64) }

/-- `setState` after identification succeeds (src/App.tsx line 57). -/
def updLandmark (l : LandmarkV) (s : TourState) : TourState :=
  { s with landmark := some l, loadingStage := LoadingStage.researching }

/-- `setState` after research succeeds (src/App.tsx line 60). -/
def updHistory (h : DetailedHistory) (s : TourState) : TourState :=
  { s with history := some h, loadingStage := LoadingStage.narrating }

/-- `setState` after the audio buffer is decoded (src/App.tsx line 66). -/
def updReady (buf : AudioBuffer) (s : TourState) : TourState :=
  { s with audioBuffer := some buf, loadingStage := LoadingStage.ready }

/-- The catch handler's `setState` (src/App.tsx line 69): store the failure
message and return to idle, leaving every other field as it is. -/
def updError (msg : String) (s : TourState) : TourState :=
  { s with error := some msg, loadingStage := LoadingStage.idle }

/-- Synchronous part of `handleFileUpload` with a file selected (src/App.tsx
lines 48-52): the first `setState`, `initAudioContext`, and entry into the
try block suspended at `fileToBase64`.  The current `loadingStage` is never
consulted — the source has no idle guard. -/
def invokeRun (m : Machine) : Machine :=
  { m with
      tour := updStart m.tour
      player := { m.player with ctx := true }
      pending := Pending.awaitFile }

/-- One resume step of the async run: deliver the pending capability result
and apply the `setState` updates of that resume segment (src/App.tsx lines
52-71).  Any failure runs the catch handler and ends the run. -/
def deliver (caps : Caps) (m : Machine) : Machine :=
  match m.pending with
  | Pending.none => m
  | Pending.awaitFile =>
      match caps.fileB64 with
      | Except.error msg => { m with tour := updError msg m.tour, pending := Pending.none }
      | Except.ok b64 =>
          { m with tour := updImage b64 m.tour, pending := Pending.awaitIdentify b64 }
  | Pending.awaitIdentify b64 =>
      match identifyLandmark (caps.identifyModel b64) with
      | Except.error msg => { m with tour := updError msg m.tour, pending := Pending.none }
      | Except.ok l =>
          { m with tour := updLandmark l m.tour, pending := Pending.awaitResearch l }
  | Pending.awaitResearch l =>
      match researchLandmark caps l.name with
      | Except.error msg => { m with tour := updError msg m.tour, pending := Pending.none }
      | Except.ok h =>
          { m with tour := updHistory h m.tour, pending := Pending.awaitNarrate l h }
  | Pending.awaitNarrate l h =>
      match narrateHistory caps (jsTemplate l.name ++ ". " ++ h.fullStory) with
      | Except.error msg => { m with tour := updError msg m.tour, pending := Pending.none }
      | Except.ok a64 => { m with pending := Pending.awaitDecode l h a64 }
  | Pending.awaitDecode _l _h a64 =>
      match caps.decodeAudio a64 with
      | Except.error msg => { m with tour := updError msg m.tour, pending := Pending.none }
      | Except.ok buf =>
          { m with
              tour := updReady buf m.tour
              player := playNarration buf m.player
              pending := Pending.none }

/-- Big-step `handleFileUpload` (src/App.tsx lines 44-71): the no-file early
return, then the synchronous entry and all five resume steps of the run.
Five `deliver` steps exhaust every path of the pipeline. -/
def handleFileUpload (caps : Caps) (filePresent : Bool) (m : Machine) : Machine :=
  if filePresent then
    deliver caps (deliver caps (deliver caps (deliver caps (deliver caps (invokeRun m)))))
  else m

/-- `resetTour` of src/App.tsx lines 86-99: stop the referenced source node
and set the tour state back to the initial aggregate.  The pending
continuation of an in-flight run is not cancelled — the source dispatches no
cancellation and keeps no run identifier. -/
def resetTour (m : Machine) : Machine :=
  { m with player := stopCurrent m.player, tour := initialTourState }

/-! ## Auxiliary predicates and concrete scenario inputs -/

/-- Every playing source node is the one referenced by `audioSourceRef`.
This holds in every reachable state of the app, because every node is
started by `playNarration`, which stops the previously referenced node. -/
def PlayerInv (p : PlayerState) : Prop :=
  ∀ x ∈ p.active, p.currentId = some x.fst

/-- Capability results for a run whose identification call fails with a
network error. -/
def capsIdFail : Caps :=
  { fileB64 := Except.ok "IMG"
    identifyModel := fun _ => Except.error "network down"
    researchModel := fun _ => Except.error "unused"
    ttsModel := fun _ => Except.error "unused"
    decodeAudio := fun _ => Except.error "unused" }

/-- Capability results for a fully successful run. -/
def capsHappy : Caps :=
  { fileB64 := Except.ok "IMG"
    identifyModel := fun _ =>
      Except.ok (some (Jval.jobj [("name", Jval.jstr "Eiffel Tower")]))
    researchModel := fun _ =>
      Except.ok { text := some "A grand iron tower.", groundingChunks := Option.none }
    ttsModel := fun _ => Except.ok { data := some "QUJD" }
    decodeAudio := fun _ => Except.ok (decodeAudioSamples [52, 18]) }

/-- A machine mid-run: research stage in flight, one image already stored. -/
def busyMachine : Machine :=
  { tour :=
      { initialTourState with
          loadingStage := LoadingStage.researching
          image := some "data:image/jpeg;base64,OLD" }
    player := { initialPlayer with ctx := true }
    pending :=
      Pending.awaitResearch
        { name := some (Jval.jstr "Old Castle")
          shortDescription := Option.none
          pointsOfInterest := Option.none } }

/-- Capability results used to restart a run over `busyMachine`. -/
def capsBusy : Caps :=
  { fileB64 := Except.ok "NEW"
    identifyModel := fun _ =>
      Except.ok (some (Jval.jobj [("name", Jval.jstr "New Tower")]))
    researchModel := fun _ =>
      Except.ok { text := some "Another story.", groundingChunks := Option.none }
    ttsModel := fun _ => Except.ok { data := some "REVG" }
    decodeAudio := fun _ => Except.ok [] }

/-- Capability results for a run that is reset while its identification
call is in flight. -/
def capsStale : Caps :=
  { fileB64 := Except.ok "IMG"
    identifyModel := fun _ =>
      Except.ok (some (Jval.jobj [("name", Jval.jstr "Big Ben")]))
    researchModel := fun _ => Except.error "unused"
    ttsModel := fun _ => Except.error "unused"
    decodeAudio := fun _ => Except.error "unused" }

/-- The reset-race trace: a run is started, its file read is delivered, the
user resets, and only then does the identification response arrive. -/
def staleTrace : Machine :=
  deliver capsStale (resetTour (deliver capsStale (invokeRun initMachine)))

/-- Capability results whose identification response parses to the empty
JSON object: every required field of `LandmarkInfo` is missing. -/
def capsNoFields : Caps :=
  { fileB64 := Except.ok "IMG"
    identifyModel := fun _ => Except.ok (some (Jval.jobj []))
    researchModel := fun _ =>
      Except.ok { text := Option.none, groundingChunks := Option.none }
    ttsModel := fun _ => Except.ok { data := some "QUJD" }
    decodeAudio := fun _ => Except.ok [] }

/-- A 1000-character story, long enough to saturate the truncation cap. -/
def longStory : String := (List.replicate 1000 'a').asString

/-! ## Helper lemmas -/

theorem decodeAudioSamples_length (bs : List Nat) :
    (decodeAudioSamples bs).length = bs.length / 2 := by
  match bs with
  | [] => simp [decodeAudioSamples]
  | [x] => simp [decodeAudioSamples]
  | lo :: hi :: rest =>
    have ih := decodeAudioSamples_length rest
    simp [decodeAudioSamples, ih]
    omega

theorem decodeAudioSamples_getD (bs : List Nat) (i : Nat) (h : 2 * i + 1 < bs.length) :
    (decodeAudioSamples bs).getD i 0 =
      ((toSigned16 (bs.getD (2 * i) 0) (bs.getD (2 * i + 1) 0) : Int) : Rat) / 32768 := by
  match bs, i with
  | [], i => simp at h
  | [x], i => simp at h
  | lo :: hi :: rest, 0 => simp [decodeAudioSamples]
  | lo :: hi :: rest, (i + 1) =>
    have h' : 2 * i + 1 < rest.length := by
      simp [List.length_cons] at h
      omega
    have ih := decodeAudioSamples_getD rest i h'
    have e2 : 2 * (i + 1) = (2 * i + 1) + 1 := by ring
    have e3 : 2 * (i + 1) + 1 = (2 * i + 1 + 1) + 1 := by ring
    simp only [decodeAudioSamples, List.getD_cons_succ, e2, e3]
    exact ih

theorem jsSubstring_length (s : String) (n : Nat) :
    (jsSubstring s n).length = min n s.length := by
  show (s.data.take n).length = min n s.data.length
  exact List.length_take n s.data

theorem narrationPrompt_len (text : String) :
    (narrationPrompt text).length = 48 + min 1000 text.length := by
  have hv : voiceInstruction.length = 48 := rfl
  show (voiceInstruction.data ++ (jsSubstring text 1000).data).length = 48 + min 1000 text.length
  rw [List.length_append]
  have : (jsSubstring text 1000).data.length = min 1000 text.length := jsSubstring_length text 1000
  rw [this]
  have : voiceInstruction.data.length = 48 := hv
  rw [this]

theorem deliver_pending_none (caps : Caps) (m : Machine) (hp : m.pending = Pending.none) :
    deliver caps m = m := by
  simp [deliver, hp]

theorem deliver_file_ok (caps : Caps) (m : Machine) (b64 : String)
    (hp : m.pending = Pending.awaitFile) (h : caps.fileB64 = Except.ok b64) :
    deliver caps m =
      { m with tour := updImage b64 m.tour, pending := Pending.awaitIdentify b64 } := by
  simp [deliver, hp, h]

theorem deliver_file_err (caps : Caps) (m : Machine) (msg : String)
    (hp : m.pending = Pending.awaitFile) (h : caps.fileB64 = Except.error msg) :
    deliver caps m = { m with tour := updError msg m.tour, pending := Pending.none } := by
  simp [deliver, hp, h]

theorem deliver_identify_ok (caps : Caps) (m : Machine) (b64 : String) (l : LandmarkV)
    (hp : m.pending = Pending.awaitIdentify b64)
    (h : identifyLandmark (caps.identifyModel b64) = Except.ok l) :
    deliver caps m =
      { m with tour := updLandmark l m.tour, pending := Pending.awaitResearch l } := by
  simp [deliver, hp, h]

theorem deliver_identify_err (caps : Caps) (m : Machine) (b64 : String) (msg : String)
    (hp : m.pending = Pending.awaitIdentify b64)
    (h : identifyLandmark (caps.identifyModel b64) = Except.error msg) :
    deliver caps m = { m with tour := updError msg m.tour, pending := Pending.none } := by
  simp [deliver, hp, h]

theorem deliver_research_ok (caps : Caps) (m : Machine) (l : LandmarkV) (hist : DetailedHistory)
    (hp : m.pending = Pending.awaitResearch l)
    (h : researchLandmark caps l.name = Except.ok hist) :
    deliver caps m =
      { m with tour := updHistory hist m.tour, pending := Pending.awaitNarrate l hist } := by
  simp [deliver, hp, h]

theorem deliver_research_err (caps : Caps) (m : Machine) (l : LandmarkV) (msg : String)
    (hp : m.pending = Pending.awaitResearch l)
    (h : researchLandmark caps l.name = Except.error msg) :
    deliver caps m = { m with tour := updError msg m.tour, pending := Pending.none } := by
  simp [deliver, hp, h]

theorem deliver_narrate_ok (caps : Caps) (m : Machine) (l : LandmarkV) (hist : DetailedHistory)
    (a64 : String) (hp : m.pending = Pending.awaitNarrate l hist)
    (h : narrateHistory caps (jsTemplate l.name ++ ". " ++ hist.fullStory) = Except.ok a64) :
    deliver caps m = { m with pending := Pending.awaitDecode l hist a64 } := by
  simp [deliver, hp, h]

theorem deliver_narrate_err (caps : Caps) (m : Machine) (l : LandmarkV) (hist : DetailedHistory)
    (msg : String) (hp : m.pending = Pending.awaitNarrate l hist)
    (h : narrateHistory caps (jsTemplate l.name ++ ". " ++ hist.fullStory) = Except.error msg) :
    deliver caps m = { m with tour := updError msg m.tour, pending := Pending.none } := by
  simp [deliver, hp, h]

theorem deliver_decode_ok (caps : Caps) (m : Machine) (l : LandmarkV) (hist : DetailedHistory)
    (a64 : String) (buf : AudioBuffer)
    (hp : m.pending = Pending.awaitDecode l hist a64)
    (h : caps.decodeAudio a64 = Except.ok buf) :
    deliver caps m =
      { m with
          tour := updReady buf m.tour
          player := playNarration buf m.player
          pending := Pending.none } := by
  simp [deliver, hp, h]

theorem deliver_decode_err (caps : Caps) (m : Machine) (l : LandmarkV) (hist : DetailedHistory)
    (a64 : String) (msg : String)
    (hp : m.pending = Pending.awaitDecode l hist a64)
    (h : caps.decodeAudio a64 = Except.error msg) :
    deliver caps m = { m with tour := updError msg m.tour, pending := Pending.none } := by
  simp [deliver, hp, h]

theorem stopCurrent_nextId (p : PlayerState) : (stopCurrent p).nextId = p.nextId := by
  cases h : p.currentId <;> simp [stopCurrent, h]

theorem stopCurrent_ctx (p : PlayerState) : (stopCurrent p).ctx = p.ctx := by
  cases h : p.currentId <;> simp [stopCurrent, h]

theorem stopCurrent_currentId (p : PlayerState) : (stopCurrent p).currentId = p.currentId := by
  cases h : p.currentId <;> simp [stopCurrent, h]

theorem filter_self_idem {α : Type} (l : List α) (f : α → Bool) :
    (l.filter f).filter f = l.filter f := by
  induction l with
  | nil => rfl
  | cons a t ih => cases h : f a <;> simp [List.filter_cons, h, ih]

theorem stopCurrent_idem (p : PlayerState) : stopCurrent (stopCurrent p) = stopCurrent p := by
  cases h : p.currentId with
  | none => simp [stopCurrent, h]
  | some i =>
    simp only [stopCurrent, h]
    rw [filter_self_idem]

theorem stopCurrent_active_nil (p : PlayerState) (hinv : PlayerInv p) :
    (stopCurrent p).active = [] := by
  cases h : p.currentId with
  | none =>
    simp only [stopCurrent, h]
    cases hl : p.active with
    | nil => rfl
    | cons x t =>
      exfalso
      have hxm : x ∈ p.active := by rw [hl]; exact List.mem_cons_self x t
      have hc := hinv x hxm
      rw [h] at hc
      exact Option.noConfusion hc
  | some i =>
    simp only [stopCurrent, h]
    rw [List.filter_eq_nil_iff]
    intro x hx
    have hc := hinv x hx
    rw [h] at hc
    have hxi : x.fst = i := by
      have := Option.some.inj hc
      omega
    simp [hxi]

theorem playNarration_from_inv (p : PlayerState) (b : AudioBuffer)
    (hc : p.ctx = true) (hinv : PlayerInv p) :
    playNarration b p =
      { ctx := true, currentId := some p.nextId, nextId := p.nextId + 1
        active := [(p.nextId, b)] } := by
  have hnil := stopCurrent_active_nil p hinv
  have hnext := stopCurrent_nextId p
  have hctx := stopCurrent_ctx p
  simp only [playNarration, hc]
  simp only [Bool.true_eq_false, if_false]
  cases hsc : stopCurrent p with
  | mk c cur nid act =>
    rw [hsc] at hnil hnext hctx
    simp at hnil hnext hctx
    subst hnil hnext
    simp [hctx, hc]

theorem filter_isSome_map_getD (l : List Chunk) :
    (l.filter (fun c => c.web.isSome)).map
        (fun c => c.web.getD { title := "undefined", uri := "undefined" }) =
      l.filterMap (fun c => c.web) := by
  induction l with
  | nil => rfl
  | cons a t ih => cases ha : a.web <;> simp [List.filter_cons, List.filterMap_cons, ha, ih]

theorem playNarration_currentId (buf : AudioBuffer) (p : PlayerState) (hc : p.ctx = true) :
    (playNarration buf p).currentId = some p.nextId := by
  simp [playNarration, hc, stopCurrent_nextId]

theorem playNarration_head (buf : AudioBuffer) (p : PlayerState) (hc : p.ctx = true) :
    (playNarration buf p).active.head? = some (p.nextId, buf) := by
  simp [playNarration, hc, stopCurrent_nextId]

/-! ## Claim theorems -/

/-- C9: `decodeAudioSamples` (modelled from the spec; src/utils.ts is not
under src/) is a pure — hence deterministic — function of the input bytes:
a stream of length `2n` or `2n + 1` yields exactly `n` samples (an odd
trailing byte is dropped, not an error), and sample `i` is the little-endian
signed 16-bit integer of bytes `2i, 2i+1` divided by 32768. -/
theorem decodeAudioSamples_law (bs : List Nat) (n : Nat)
    (h : bs.length = 2 * n ∨ bs.length = 2 * n + 1) :
    (decodeAudioSamples bs).length = n ∧
    ∀ i, i < n →
      (decodeAudioSamples bs).getD i 0 =
        ((toSigned16 (bs.getD (2 * i) 0) (bs.getD (2 * i + 1) 0) : Int) : Rat) / 32768 := by
  constructor
  · rw [decodeAudioSamples_length]
    omega
  · intro i hi
    apply decodeAudioSamples_getD
    omega

/-- Witness for C9 on the three-byte stream `[52, 18, 255]`: the odd
trailing byte is dropped and exactly one sample is produced. -/
theorem decodeAudioSamples_law_witness :
    (decodeAudioSamples [52, 18, 255]).length = 1 ∧
    ∀ i, i < 1 →
      (decodeAudioSamples [52, 18, 255]).getD i 0 =
        ((toSigned16 ([52, 18, 255].getD (2 * i) 0) ([52, 18, 255].getD (2 * i + 1) 0) : Int) : Rat)
          / 32768 :=
  decodeAudioSamples_law [52, 18, 255] 1 (Or.inr (by decide))

/-- C2, corrected: the narration request truncates its input text to at
most 1000 characters, but then embeds it in a fixed 48-character voice
instruction (src/geminiService.ts line 90), so the prompt text actually
sent to the speech-synthesis capability has length `48 + min 1000 |text|`,
which can reach 1048 — it is not capped at 1000. -/
theorem narrationPrompt_truncation (text : String) :
    narrationPrompt text = voiceInstruction ++ jsSubstring text 1000 ∧
    (jsSubstring text 1000).length ≤ 1000 ∧
    (narrationPrompt text).length = 48 + min 1000 text.length ∧
    (narrationPrompt text).length ≤ 1048 := by
  refine ⟨rfl, ?_, narrationPrompt_len text, ?_⟩
  · rw [jsSubstring_length]
    omega
  · rw [narrationPrompt_len]
    omega

/-- Counterexample for C2 as stated: on a 1000-character story the prompt
text sent to the synthesis capability is 1048 characters long, exceeding
the claimed 1000-character bound. -/
theorem narrationPrompt_exceeds_cap :
    ¬ ((narrationPrompt longStory).length ≤ 1000) := by
  have h := narrationPrompt_len longStory
  have h2 : longStory.length = 1000 := by
    show (List.replicate 1000 'a').length = 1000
    rw [List.length_replicate]
  rw [h2] at h
  omega

/-- C10: the research stage never fails on an empty or ungrounded response
(src/geminiService.ts lines 69-80): an absent or empty response text yields
the story "No information found.", the sources are exactly the grounding
chunks carrying a `web` field, an absent grounding-metadata block yields
`[]`, and any successful model response is mapped to a successful
`DetailedHistory` result. -/
theorem researchLandmark_resilient (resp : ResearchResp) :
    ((resp.text = Option.none ∨ resp.text = some "") →
      (researchOfResp resp).fullStory = "No information found.") ∧
    (researchOfResp resp).sources =
      (resp.groundingChunks.getD []).filterMap (fun c => c.web) ∧
    (resp.groundingChunks = Option.none → (researchOfResp resp).sources = []) ∧
    (∀ caps lname, caps.researchModel (researchPrompt lname) = Except.ok resp →
      researchLandmark caps lname = Except.ok (researchOfResp resp)) := by
  refine ⟨?_, ?_, ?_, ?_⟩
  · rintro (h | h) <;> simp [researchOfResp, jsOr, h]
  · simp only [researchOfResp]
    exact filter_isSome_map_getD _
  · intro h
    simp [researchOfResp, h]
  · intro caps lname hm
    simp [researchLandmark, hm]

/-- Witness for C10: a response with no text and no grounding metadata. -/
theorem researchLandmark_resilient_witness :
    (researchOfResp { text := Option.none, groundingChunks := Option.none }).fullStory =
      "No information found." ∧
    (researchOfResp { text := Option.none, groundingChunks := Option.none }).sources = [] :=
  ⟨(researchLandmark_resilient _).1 (Or.inl rfl),
   (researchLandmark_resilient _).2.2.1 rfl⟩

/-- C7: with the audio context initialized and every playing node being the
referenced one (true in every reachable state), `play(bufferA)` then
`play(bufferB)` leaves exactly one active handle, bound to `bufferB`.
Stopping an already-stopped or never-started node raises no error: the
source wraps `stop()` in try/catch, modelled by `stopCurrent` being total. -/
theorem playNarration_interrupt (p : PlayerState) (bA bB : AudioBuffer)
    (hc : p.ctx = true) (hinv : PlayerInv p) :
    (playNarration bB (playNarration bA p)).active = [(p.nextId + 1, bB)] ∧
    (playNarration bB (playNarration bA p)).currentId = some (p.nextId + 1) := by
  have h1 := playNarration_from_inv p bA hc hinv
  rw [h1]
  have hinv2 : PlayerInv
      { ctx := true, currentId := some p.nextId, nextId := p.nextId + 1
        active := [(p.nextId, bA)] } := by
    intro x hx
    rw [List.mem_singleton] at hx
    subst hx
    rfl
  have h2 := playNarration_from_inv _ bB rfl hinv2
  rw [h2]
  exact ⟨rfl, rfl⟩

/-- Witness for C7: two plays on a fresh initialized player. -/
theorem playNarration_interrupt_witness :
    (playNarration [(2 : Rat)] (playNarration [(1 : Rat)]
        { ctx := true, currentId := Option.none, nextId := 0, active := [] })).active =
      [(1, [(2 : Rat)])] ∧
    (playNarration [(2 : Rat)] (playNarration [(1 : Rat)]
        { ctx := true, currentId := Option.none, nextId := 0, active := [] })).currentId =
      some 1 := by
  have h := playNarration_interrupt
      { ctx := true, currentId := Option.none, nextId := 0, active := [] }
      [(1 : Rat)] [(2 : Rat)] rfl (by intro x hx; exact absurd hx (List.not_mem_nil x))
  simpa using h

/-- C8: `resetTour` stops any active playback and sets the tour state to
exactly the initial aggregate in one step (atomically from the consumer's
perspective: the model applies a single state replacement, matching the
single `setState` of src/App.tsx lines 91-98), and it is idempotent. -/
theorem resetTour_resets (m : Machine) (hinv : PlayerInv m.player) :
    (resetTour m).tour = initialTourState ∧
    (resetTour m).player.active = [] ∧
    resetTour (resetTour m) = resetTour m := by
  refine ⟨rfl, ?_, ?_⟩
  · exact stopCurrent_active_nil m.player hinv
  · simp [resetTour, stopCurrent_idem]

/-- Witness for C8 on a machine mid-run. -/
theorem resetTour_resets_witness :
    (resetTour busyMachine).tour = initialTourState ∧
    (resetTour busyMachine).player.active = [] ∧
    resetTour (resetTour busyMachine) = resetTour busyMachine :=
  resetTour_resets busyMachine (by intro x hx; simp [busyMachine, initialPlayer] at hx)

/-- C1, corrected: when a stage's capability call fails, the run does stop
with `loadingStage = idle`, `error` set to the failure message and no later
stage running — but the catch handler of src/App.tsx line 69 spreads the
previous state, so the content fields populated so far (and any fields left
from an earlier run) are retained, not cleared.  Each conjunct pins the
exact final state after a stage-1, stage-2 or stage-3 failure. -/
theorem handleFileUpload_stage_failure (caps : Caps) (m : Machine) (msg : String) :
    (∀ b64, caps.fileB64 = Except.ok b64 →
      identifyLandmark (caps.identifyModel b64) = Except.error msg →
      handleFileUpload caps true m =
        { m with
            tour := updError msg (updImage b64 (updStart m.tour))
            player := { m.player with ctx := true }
            pending := Pending.none }) ∧
    (∀ b64 l, caps.fileB64 = Except.ok b64 →
      identifyLandmark (caps.identifyModel b64) = Except.ok l →
      researchLandmark caps l.name = Except.error msg →
      handleFileUpload caps true m =
        { m with
            tour := updError msg (updLandmark l (updImage b64 (updStart m.tour)))
            player := { m.player with ctx := true }
            pending := Pending.none }) ∧
    (∀ b64 l hist, caps.fileB64 = Except.ok b64 →
      identifyLandmark (caps.identifyModel b64) = Except.ok l →
      researchLandmark caps l.name = Except.ok hist →
      narrateHistory caps (jsTemplate l.name ++ ". " ++ hist.fullStory) = Except.error msg →
      handleFileUpload caps true m =
        { m with
            tour := updError msg (updHistory hist (updLandmark l (updImage b64 (updStart m.tour))))
            player := { m.player with ctx := true }
            pending := Pending.none }) := by
  refine ⟨?_, ?_, ?_⟩
  · intro b64 h1 h2
    show deliver caps (deliver caps (deliver caps (deliver caps (deliver caps (invokeRun m))))) = _
    simp only [invokeRun, deliver, h1, h2]
  · intro b64 l h1 h2 h3
    show deliver caps (deliver caps (deliver caps (deliver caps (deliver caps (invokeRun m))))) = _
    simp only [invokeRun, deliver, h1, h2, h3]
  · intro b64 l hist h1 h2 h3 h4
    show deliver caps (deliver caps (deliver caps (deliver caps (deliver caps (invokeRun m))))) = _
    simp only [invokeRun, deliver, h1, h2, h3, h4]

/-- Witness for C1's corrected statement: a run whose identification call
fails with "network down". -/
theorem handleFileUpload_stage_failure_witness :
    handleFileUpload capsIdFail true initMachine =
      { initMachine with
          tour := updError "network down" (updImage "IMG" (updStart initialTourState))
          player := { initialPlayer with ctx := true }
          pending := Pending.none } :=
  (handleFileUpload_stage_failure capsIdFail initMachine "network down").1 "IMG" rfl rfl

/-- Counterexample for C1 as stated: after a failed identification the run
is idle with the error stored, yet `image` is still populated — the content
fields are not all cleared. -/
theorem handleFileUpload_failure_keeps_image :
    (handleFileUpload capsIdFail true initMachine).tour.error = some "network down" ∧
    (handleFileUpload capsIdFail true initMachine).tour.loadingStage = LoadingStage.idle ∧
    (handleFileUpload capsIdFail true initMachine).tour.image ≠ Option.none := by
  refine ⟨rfl, rfl, ?_⟩
  have himg : (handleFileUpload capsIdFail true initMachine).tour.image =
      some ("data:image/jpeg;base64," ++ "IMG") := rfl
  rw [himg]
  simp

/-- C3: a run whose capability calls all succeed performs identification,
then research on the identified landmark's name, then narration on the
prompt built from the name and the story, and ends `ready` with the decoded
buffer stored, no error, and playback started on that buffer. -/
theorem handleFileUpload_success (caps : Caps) (m : Machine) (b64 : String) (l : LandmarkV)
    (hist : DetailedHistory) (a64 : String) (buf : AudioBuffer)
    (h1 : caps.fileB64 = Except.ok b64)
    (h2 : identifyLandmark (caps.identifyModel b64) = Except.ok l)
    (h3 : researchLandmark caps l.name = Except.ok hist)
    (h4 : narrateHistory caps (jsTemplate l.name ++ ". " ++ hist.fullStory) = Except.ok a64)
    (h5 : caps.decodeAudio a64 = Except.ok buf) :
    (handleFileUpload caps true m).tour.loadingStage = LoadingStage.ready ∧
    (handleFileUpload caps true m).tour.audioBuffer = some buf ∧
    (handleFileUpload caps true m).tour.error = Option.none ∧
    (handleFileUpload caps true m).tour.landmark = some l ∧
    (handleFileUpload caps true m).tour.history = some hist ∧
    (handleFileUpload caps true m).tour.image = some ("data:image/jpeg;base64," ++ b64) ∧
    (handleFileUpload caps true m).player.currentId = some m.player.nextId ∧
    (handleFileUpload caps true m).player.active.head? = some (m.player.nextId, buf) ∧
    (handleFileUpload caps true m).pending = Pending.none := by
  have hrun : handleFileUpload caps true m =
      { m with
          tour := updReady buf (updHistory hist (updLandmark l (updImage b64 (updStart m.tour))))
          player := playNarration buf { m.player with ctx := true }
          pending := Pending.none } := by
    show deliver caps (deliver caps (deliver caps (deliver caps (deliver caps (invokeRun m))))) = _
    simp only [invokeRun, deliver, h1, h2, h3, h4, h5]
  rw [hrun]
  refine ⟨rfl, rfl, rfl, rfl, rfl, rfl, ?_, ?_, rfl⟩
  · exact playNarration_currentId buf { m.player with ctx := true } rfl
  · exact playNarration_head buf { m.player with ctx := true } rfl

/-- Witness for C3: a fully successful run over `capsHappy`. -/
theorem handleFileUpload_success_witness :
    (handleFileUpload capsHappy true initMachine).tour.loadingStage = LoadingStage.ready ∧
    (handleFileUpload capsHappy true initMachine).tour.audioBuffer =
      some (decodeAudioSamples [52, 18]) ∧
    (handleFileUpload capsHappy true initMachine).tour.error = Option.none := by
  have h := handleFileUpload_success capsHappy initMachine "IMG"
      (extractLandmark (Jval.jobj [("name", Jval.jstr "Eiffel Tower")]))
      (researchOfResp { text := some "A grand iron tower.", groundingChunks := Option.none })
      "QUJD" (decodeAudioSamples [52, 18]) rfl rfl rfl rfl rfl
  exact ⟨h.1, h.2.1, h.2.2.1⟩

/-- C4, corrected: the source has no idle guard — `handleFileUpload` never
consults the current `loadingStage`, so a second invocation while non-idle
is not ignored or rejected: the run proceeds identically whatever the
current stage is. -/
theorem handleFileUpload_ignores_stage (caps : Caps) (m : Machine) (stg : LoadingStage) :
    handleFileUpload caps true m =
      handleFileUpload caps true { m with tour := { m.tour with loadingStage := stg } } := rfl

/-- Counterexample for C4 as stated: invoking the upload handler on a
machine whose stage is `researching` is not ignored — it starts a fresh run
that drives the state to `ready`, changing the tour state. -/
theorem handleFileUpload_runs_while_busy :
    (handleFileUpload capsBusy true busyMachine).tour.loadingStage = LoadingStage.ready ∧
    handleFileUpload capsBusy true busyMachine ≠ busyMachine := by
  have hfin : (handleFileUpload capsBusy true busyMachine).tour.loadingStage =
      LoadingStage.ready := rfl
  refine ⟨hfin, ?_⟩
  intro hc
  rw [hc] at hfin
  exact absurd hfin (by decide)

/-- C5, corrected: the source attaches no generation or run identifier, so
a capability response of a run interrupted by `resetTour` is not discarded:
delivering the pending identification result after the reset mutates the
post-reset state, resurrecting the stale landmark and stage. -/
theorem staleResponse_applies_after_reset (caps : Caps) (m : Machine) (b64 : String)
    (l : LandmarkV) (hp : m.pending = Pending.awaitIdentify b64)
    (hid : identifyLandmark (caps.identifyModel b64) = Except.ok l) :
    (resetTour m).tour = initialTourState ∧
    (deliver caps (resetTour m)).tour.landmark = some l ∧
    (deliver caps (resetTour m)).tour.loadingStage = LoadingStage.researching ∧
    (deliver caps (resetTour m)).tour ≠ initialTourState := by
  have hp' : (resetTour m).pending = Pending.awaitIdentify b64 := hp
  have hd := deliver_identify_ok caps (resetTour m) b64 l hp' hid
  rw [hd]
  refine ⟨rfl, rfl, rfl, ?_⟩
  intro hc
  have hland := congrArg TourState.landmark hc
  simp [updLandmark, initialTourState] at hland

/-- Witness for C5's corrected statement on the concrete reset-race trace. -/
theorem staleResponse_applies_after_reset_witness :
    (deliver capsStale (resetTour (deliver capsStale (invokeRun initMachine)))).tour.landmark =
      some (extractLandmark (Jval.jobj [("name", Jval.jstr "Big Ben")])) ∧
    (resetTour (deliver capsStale (invokeRun initMachine))).tour = initialTourState := by
  have h := staleResponse_applies_after_reset capsStale
      (deliver capsStale (invokeRun initMachine)) "IMG"
      (extractLandmark (Jval.jobj [("name", Jval.jstr "Big Ben")])) rfl rfl
  exact ⟨h.2.1, h.1⟩

/-- Counterexample for C5 as stated: in the trace start-run, deliver file,
reset, deliver identification, the post-reset state is the initial
aggregate, yet the stale identification response then mutates it. -/
theorem stale_response_mutates_state :
    (resetTour (deliver capsStale (invokeRun initMachine))).tour = initialTourState ∧
    staleTrace.tour ≠ initialTourState ∧
    staleTrace.tour.landmark =
      some (extractLandmark (Jval.jobj [("name", Jval.jstr "Big Ben")])) := by
  refine ⟨rfl, ?_, rfl⟩
  have hl : staleTrace.tour.landmark =
      some (extractLandmark (Jval.jobj [("name", Jval.jstr "Big Ben")])) := rfl
  intro hc
  rw [hc] at hl
  exact Option.noConfusion hl

/-- C6, corrected: an identification response that throws or is unparsable
is indeed treated as an identification-stage failure (idle, error set, run
ended), but the source performs no required-field validation: a parsable
payload missing every required field is accepted and the run proceeds to
the research stage with an all-absent landmark. -/
theorem identify_validation (caps : Caps) (m : Machine) (b64 : String)
    (hp : m.pending = Pending.awaitIdentify b64) :
    (caps.identifyModel b64 = Except.ok Option.none →
      (deliver caps m).tour.loadingStage = LoadingStage.idle ∧
      (deliver caps m).tour.error = some "Failed to parse landmark identification data." ∧
      (deliver caps m).pending = Pending.none) ∧
    (∀ msg, caps.identifyModel b64 = Except.error msg →
      (deliver caps m).tour.loadingStage = LoadingStage.idle ∧
      (deliver caps m).tour.error = some msg ∧
      (deliver caps m).pending = Pending.none) ∧
    (caps.identifyModel b64 = Except.ok (some (Jval.jobj [])) →
      (deliver caps m).tour.loadingStage = LoadingStage.researching ∧
      (deliver caps m).pending = Pending.awaitResearch
        { name := Option.none, shortDescription := Option.none
          pointsOfInterest := Option.none }) := by
  refine ⟨?_, ?_, ?_⟩
  · intro h
    have hid : identifyLandmark (caps.identifyModel b64) =
        Except.error "Failed to parse landmark identification data." := by rw [h]; rfl
    rw [deliver_identify_err caps m b64 _ hp hid]
    exact ⟨rfl, rfl, rfl⟩
  · intro msg h
    have hid : identifyLandmark (caps.identifyModel b64) = Except.error msg := by rw [h]; rfl
    rw [deliver_identify_err caps m b64 msg hp hid]
    exact ⟨rfl, rfl, rfl⟩
  · intro h
    have hid : identifyLandmark (caps.identifyModel b64) =
        Except.ok { name := Option.none, shortDescription := Option.none
                    pointsOfInterest := Option.none } := by rw [h]; rfl
    rw [deliver_identify_ok caps m b64 _ hp hid]
    exact ⟨rfl, rfl⟩

/-- Witness for C6's corrected statement: delivering an empty-object
identification response moves the run to `researching`. -/
theorem identify_validation_witness :
    (deliver capsNoFields (deliver capsNoFields (invokeRun initMachine))).tour.loadingStage =
      LoadingStage.researching := by
  have h := identify_validation capsNoFields (deliver capsNoFields (invokeRun initMachine))
      "IMG" rfl
  exact (h.2.2 rfl).1

/-- Counterexample for C6 as stated: an identification payload missing all
required fields is not treated as an identification failure — the whole run
proceeds and ends `ready` with the field-less landmark stored. -/
theorem identify_missing_fields_not_failure :
    (handleFileUpload capsNoFields true initMachine).tour.loadingStage = LoadingStage.ready ∧
    (handleFileUpload capsNoFields true initMachine).tour.error = Option.none ∧
    (handleFileUpload capsNoFields true initMachine).tour.landmark =
      some { name := Option.none, shortDescription := Option.none
             pointsOfInterest := Option.none } :=
  ⟨rfl, rfl, rfl⟩

end VisionTour
